import Mathlib

/-!
# Verification of the raven dataset-creation core

A shallow embedding of the dataset-creation core of the `raven` repository
(`ravenml/data/write_dataset.py`, `ravenml/data/interfaces.py`,
`ravenml/utils/question.py`) together with theorems settling the claims of
the specification against it.

Side effects (directory creation, file copies, metadata writes, spinner
output, user prompts) are modelled as explicit event traces; exceptions are
modelled with `Except`; Python truthiness is made explicit at each use site.
Helper functions that live in `ravenml/data/helpers.py` (absent from the
sources at hand: `split_data`, `copy_data_locally`, `default_filter`,
`default_filter_and_load`, `read_json_metadata`) are modelled from the
specification and marked as such in their doc comments.
-/

set_option autoImplicit false
set_option maxRecDepth 100000

namespace Raven

/-- Filesystem paths are modelled as lists of components
(`pathlib.Path` `/`-joins become list appends). -/
abbrev PyPath := List String

/-- Exceptions that the embedded code can raise.  Python raises either
library exception types (`click` errors, `KeyError`) or bare `Exception`
with a message; the spec's taxonomy names (`ConfigurationError`,
`UnsupportedMetadataFormat`) are used for the spec-modelled splitter range
check and for the explicit metadata-format raise site respectively. -/
inductive PyErr where
  /-- `click.exceptions.UsageError` raised when `config` or `plugin_name` is `None`. -/
  | usageError
  /-- `click.exceptions.BadParameter` (unknown imageset / missing plugin section). -/
  | badParameter (hint : String)
  /-- `click.get_current_context().exit()` after a declined overwrite prompt. -/
  | exit
  /-- `KeyError` from a missing `kwargs` entry. -/
  | keyError (key : String)
  /-- Bare `Exception(msg)` raise sites. -/
  | exception (msg : String)
  /-- The raise site guarding non-`.json` metadata suffixes
  (`DefaultDatasetWriter.load_image_ids`), named per the spec taxonomy. -/
  | unsupportedMetadataFormat (msg : String)
  /-- Spec taxonomy: `test_percent` outside `[0, 1]` (spec-modelled splitter). -/
  | configurationError
deriving DecidableEq, Repr

/-- Observable side effects of one dataset-creation run. -/
inductive Event where
  /-- `os.mkdir(p)` -/
  | mkdir (p : PyPath)
  /-- `os.makedirs(p, ...)` -/
  | makedirs (p : PyPath)
  /-- `shutil.rmtree(p)` -/
  | rmtree (p : PyPath)
  /-- A file copy of the files associated with one image id into `dst`. -/
  | copyFiles (imageId : String) (dst : PyPath)
  /-- Opening a file for writing (creates / truncates it). -/
  | writeFile (p : PyPath)
  /-- A call of the plugin hook `write_data(objects, path, split_type)`;
  the objects are recorded by their `image_id` field. -/
  | writeData (imageIds : List String) (path : PyPath) (splitType : String)
  /-- A call into the interaction oracle (`questionary` prompt):
  `kind` is `"confirm"`, `"input"`, `"list"` or `"checkbox"`. -/
  | prompt (kind : String) (message : String)
  /-- A remote-store call (`get_imageset_names`, imageset download). -/
  | remote (desc : String)
  /-- `Spinner.start` with the displayed text. -/
  | spinnerStart (text : String)
  /-- `Spinner.succeed` with the displayed text. -/
  | spinnerSucceed (text : String)
  /-- `os.scandir(dir)` during `load_image_ids`. -/
  | scanDir (dir : String)
  /-- A call of a plugin method body (used by the decorator-registry model). -/
  | callBody (id : Nat)
  /-- Local-cache maintenance (`ensure_clean_subpath` / `ensure_subpath_exists`). -/
  | cacheOp (desc : String)
  /-- `click.echo` / `print` output. -/
  | echo (msg : String)
deriving DecidableEq, Repr

/-- Is an event a call into the interaction oracle? -/
def Event.isPrompt : Event → Bool
  | .prompt _ _ => true
  | _ => false

/-- The oracle calls occurring in a trace. -/
def oracleCalls (tr : List Event) : List Event := tr.filter Event.isPrompt

/-- `ravenml/utils/question.py`, `cli_spinner(text, func, *args)`:
starts a spinner, runs `func`; on an exception it succeeds the spinner with
`text + 'Failed.'` and re-raises, otherwise it succeeds the spinner with
`text + 'Complete.'` and returns the result.  The thunk is represented by
the trace and outcome of running it. -/
def cli_spinner {ε α : Type} (text : String) (run : List Event × Except ε α) :
    List Event × Except ε α :=
  match run.2 with
  | .error e =>
      (Event.spinnerStart text :: run.1 ++ [Event.spinnerSucceed (text ++ "Failed.")], .error e)
  | .ok a =>
      (Event.spinnerStart text :: run.1 ++ [Event.spinnerSucceed (text ++ "Complete.")], .ok a)

deriving instance DecidableEq for Except

/-- Exact stand-in for Python's float `test_percent`: the fraction
`num / den` (with `den` positive in every use below).  `0.2` is
`⟨1, 5⟩`, `1.5` is `⟨3, 2⟩`. -/
structure Ratio where
  num : ℤ
  den : ℕ
deriving DecidableEq, Repr

/-- `p < 0` for a ratio with positive denominator. -/
def Ratio.neg (p : Ratio) : Bool := p.num < 0

/-- `1 < p` for a ratio with positive denominator. -/
def Ratio.gtOne (p : Ratio) : Bool := (p.den : ℤ) < p.num

/-- Number of held-out elements for a list of length `n` at ratio `p`:
`round(n * p) = ⌊n * p + 1/2⌋`, written as an integer floor division;
this deterministic rounding matches the spec's end-to-end scenario
(`8 * 0.2 → 2`). -/
def heldCount (n : ℕ) (p : Ratio) : ℕ :=
  ((2 * (n : ℤ) * p.num + (p.den : ℤ)).fdiv (2 * (p.den : ℤ))).toNat

/-- Modelled from the spec: `split_data` of `ravenml/data/helpers.py`
(absent from the sources), §4.4 Splitter — `split(objects, test_percent) ->
(held_out, remainder)`; the two outputs partition the input preserving
relative order, `len(held_out)` is `round(len(objects) * test_percent)`,
and `test_percent` outside `[0, 1]` is a `ConfigurationError`. -/
def split_data {α : Type} (objects : List α) (test_percent : Ratio) :
    Except PyErr (List α × List α) :=
  if test_percent.neg ∨ test_percent.gtOne then .error .configurationError
  else
    .ok (objects.take (heldCount objects.length test_percent),
         objects.drop (heldCount objects.length test_percent))

/-! ## The inheritable decorator registry

`DecoratorSuperClass.__init_subclass__` (identical in
`ravenml/data/write_dataset.py` and `ravenml/utils/question.py`).
Python method objects are modelled by `Method`: either an undecorated
function body (no `inherit_decorator` attribute) or the wrapper returned by
applying a protocol-following decorator — such a wrapper carries the
attributes `inherit_decorator` (the decorator function itself), `args` and
`kwargs`, exactly as `cli_spinner_wrapper` sets them
(`wrapper.inherit_decorator = cli_spinner_wrapper; wrapper.args = text`). -/

/-- A Python attribute value that is either absent/`False` or a string
(the shapes taken by the `args` / `kwargs` attributes in the sources). -/
inductive PyAttr where
  | falsy
  | str (s : String)
deriving DecidableEq, Repr

/-- Python truthiness of a `PyAttr` (the empty string is falsy). -/
def PyAttr.truthy : PyAttr → Bool
  | .falsy => false
  | .str s => s ≠ ""

/-- Identity of a decorator function.  `cliSpinnerWrapper` is
`cli_spinner_wrapper` of `ravenml/utils/question.py`; `custom n` stands for
any other protocol-following decorator. -/
inductive Dec where
  | cliSpinnerWrapper
  | custom (id : Nat)
deriving DecidableEq, Repr

/-- A Python method object. -/
inductive Method where
  /-- An undecorated function body, identified by a label;
  `getattr(obj, "inherit_decorator", False)` is falsy on it. -/
  | base (id : Nat)
  /-- The wrapper produced by a protocol-following decorator `d` — it
  carries `inherit_decorator = d` and the attributes `args`, `kwargs`. -/
  | deco (d : Dec) (args kwargs : PyAttr) (m : Method)
deriving DecidableEq, Repr

/-- `getattr(obj, "inherit_decorator", None)`, `None`/`False` as `none`. -/
def Method.inheritDecorator : Method → Option Dec
  | .base _ => none
  | .deco d _ _ _ => some d

/-- `getattr(obj, "args", False)`. -/
def Method.argsAttr : Method → PyAttr
  | .base _ => .falsy
  | .deco _ a _ _ => a

/-- `getattr(obj, "kwargs", False)`. -/
def Method.kwargsAttr : Method → PyAttr
  | .base _ => .falsy
  | .deco _ _ k _ => k

/-- One `_decorator_registry` entry:
`(decorator function, decorator args, decorator kwargs)`. -/
structure RegEntry where
  dec : Dec
  args : PyAttr
  kwargs : PyAttr
deriving DecidableEq, Repr

/-- `_decorator_registry`, a Python dict keyed by stage name. -/
abbrev Registry := List (String × RegEntry)

/-- A class `__dict__` restricted to its method entries. -/
abbrev ClassDict := List (String × Method)

/-- First-match association lookup (Python dict access). -/
def lookup? {β : Type} (l : List (String × β)) (k : String) : Option β :=
  match l with
  | [] => none
  | (k', v) :: rest => if k' = k then some v else lookup? rest k

/-- `setattr(cls, name, m)`: rebind `name` in the class dict. -/
def setAttr (d : ClassDict) (name : String) (m : Method) : ClassDict :=
  match d with
  | [] => [(name, m)]
  | (k, v) :: rest => if k = name then (k, m) :: rest else (k, v) :: setAttr rest name m

/-- First loop of `__init_subclass__`: copy the inherited registry and add
an entry for every method of the current class `__dict__` that carries a
truthy `inherit_decorator` attribute and whose name is not yet registered
(the loop runs in `__dict__` order, threading the registry through). -/
def buildRegistry (inherited : Registry) : ClassDict → Registry
  | [] => inherited
  | (nm, m) :: rest =>
      buildRegistry
        (match m.inheritDecorator with
         | some d =>
             if lookup? inherited nm = none then
               inherited ++ [(nm, ⟨d, m.argsAttr, m.kwargsAttr⟩)]
             else inherited
         | none => inherited)
        rest

/-- The re-decoration applied by the second loop of `__init_subclass__`,
following its branch structure exactly:
`decorator[0](decorator[1], decorator[2])(m)` when both args and kwargs are
truthy, `decorator[0](decorator[1])(m)` when only args is,
`decorator[0](decorator[2])(m)` when neither is (the registered kwargs
value is passed positionally), and `decorator[0](m)` on the remaining
(unreachable) branch. -/
def redecorate (e : RegEntry) (m : Method) : Method :=
  if e.args.truthy || e.kwargs.truthy then
    if e.kwargs.truthy then .deco e.dec e.args e.kwargs m
    else .deco e.dec e.args .falsy m
  else if !e.args.truthy then .deco e.dec e.kwargs .falsy m
  else .deco e.dec .falsy .falsy m

/-- Second loop of `__init_subclass__`: for every registry entry whose name
is bound in the class `__dict__` by a method whose `inherit_decorator`
differs from the registered decorator, rebind that name to the re-decorated
method (the loop runs in registry order, threading the dict through). -/
def applyRegistry : Registry → ClassDict → ClassDict
  | [], d => d
  | (nm, e) :: rest, d =>
      applyRegistry rest
        (match lookup? d nm with
         | some m =>
             if m.inheritDecorator ≠ some e.dec then
               setAttr d nm (redecorate e m)
             else d
         | none => d)

/-- `DecoratorSuperClass.__init_subclass__(cls)`: given the registry
inherited from the superclass and the new class's own `__dict__`, produce
the class's registry and its `__dict__` after re-decoration. -/
def initSubclass (inherited : Registry) (dict : ClassDict) :
    Registry × ClassDict :=
  let reg := buildRegistry inherited dict
  (reg, applyRegistry reg dict)

/-- Attribute resolution along a chain of processed class dicts, most
derived first (Python MRO lookup). -/
def resolveAttr (chain : List ClassDict) (name : String) : Option Method :=
  match chain with
  | [] => none
  | d :: rest =>
    match lookup? d name with
    | some m => some m
    | none => resolveAttr rest name

/-- Runs a method object.  A `base` body is looked up in `bodies`
(the plugin-supplied implementations); a `cli_spinner_wrapper` wrapper runs
`cli_spinner text inner`; wrappers of other decorators are modelled as
transparent (their observable behavior is not part of the sources). -/
def runMethod (bodies : Nat → List Event × Except PyErr Unit) :
    Method → List Event × Except PyErr Unit
  | .base i => (Event.callBody i :: (bodies i).1, (bodies i).2)
  | .deco .cliSpinnerWrapper a _ m =>
      cli_spinner (match a with | .str s => s | .falsy => "") (runMethod bodies m)
  | .deco (.custom _) _ _ m => runMethod bodies m

/-- Number of spinner starts in a trace. -/
def countSpinnerStarts (tr : List Event) : ℕ :=
  (tr.filter fun e => match e with | .spinnerStart _ => true | _ => false).length

/-! ## The dataset writer (`ravenml/data/write_dataset.py`) -/

/-- A value of the `associated_files` dict: either `None` (so falsy) or a
`('prefix', 'suffix')` tuple (always truthy, tuples being non-empty). -/
inductive AFVal where
  | pynone
  | pair (pre suf : String)
deriving DecidableEq, Repr

/-- Python truthiness of `associated_files.get('metadata')`. -/
def afTruthy : Option AFVal → Bool
  | some (.pair _ _) => true
  | _ => false

/-- The `associated_files` dict: filetype → prefix/suffix pair. -/
abbrev AssocFiles := List (String × AFVal)

/-- A `ConstructedObject`: the core only reads its `image_id` entry. -/
structure CObj where
  image_id : String
deriving DecidableEq, Repr

/-- The attributes `DatasetWriter.__init__` reads off the `create`
argument (`create.kfolds`, `create.test_percent`,
`create.plugin_metadata['temp_dir_path']`, `create.dataset_path`,
`create.metadata[...]`, `create.plugin_metadata['architecture']`,
`create.imageset_paths`). -/
structure WriterCreate where
  kfolds : ℕ
  test_percent : Ratio
  temp_dir_path : PyPath
  dataset_path : PyPath
  dataset_name : String
  created_by : String
  comments : String
  architecture : String
  imageset_paths : List String
deriving DecidableEq, Repr

/-- Metadata about filtering: the dict initialized to `{"groups": []}`
(groups kept opaque to the core). -/
abbrev FilterMeta := List (String × List String)

/-- One row of `tags_df`: the `(imageset_path, image_id)` index key and the
boolean tag flags parsed from the metadata file. -/
abbrev TagRow := (String × String) × List (String × Bool)

/-- The state a successfully constructed `DatasetWriter` holds. -/
structure DatasetWriterState where
  associated_files : AssocFiles
  num_folds : ℕ
  test_percent : Ratio
  temp_dir : PyPath
  dataset_path : PyPath
  dataset_name : String
  created_by : String
  comments : String
  plugin_name : String
  imageset_paths : List String
  tags_df : List TagRow
  image_ids : Option (List (PyPath × String))
  filter_metadata : FilterMeta
deriving DecidableEq, Repr

/-- `DatasetWriter.__init__(self, create, **kwargs)`: reads
`kwargs['associated_files']` (a `KeyError` if absent), raises
`Exception(...)` unless its `'metadata'` entry is truthy, then fills the
state from `create`, with `tags_df` an empty dataframe, `image_ids = None`
and `filter_metadata = {"groups": []}`. -/
def DatasetWriter.construct (create : WriterCreate)
    (kwargs : List (String × AssocFiles)) : Except PyErr DatasetWriterState :=
  match lookup? kwargs "associated_files" with
  | none => .error (.keyError "associated_files")
  | some af =>
    if afTruthy (lookup? af "metadata") then
      .ok { associated_files := af
            num_folds := create.kfolds
            test_percent := create.test_percent
            temp_dir := create.temp_dir_path
            dataset_path := create.dataset_path
            dataset_name := create.dataset_name
            created_by := create.created_by
            comments := create.comments
            plugin_name := create.architecture
            imageset_paths := create.imageset_paths
            tags_df := []
            image_ids := none
            filter_metadata := [("groups", [])] }
    else
      .error (.exception
        "Associated files must contain a 'metadata' key with a corresponding prefix-suffix pair")

/-- `DefaultDatasetWriter.__init__(self, create, associated_files)` calls
`super().__init__(create, associated_files=associated_files)`. -/
def DefaultDatasetWriter.construct (create : WriterCreate) (af : AssocFiles) :
    Except PyErr DatasetWriterState :=
  DatasetWriter.construct create [("associated_files", af)]

/-- A directory entry of an imageset as `os.scandir` yields it: its file
name, and the tag flags its metadata file parses to
(`read_json_metadata` lives in the absent `helpers.py`; its result is
abstracted to the flags carried here). -/
structure DirEntry where
  name : String
  tags : List (String × Bool)
deriving DecidableEq, Repr

/-- One imageset directory: its path and its directory entries. -/
structure ImagesetDir where
  path : String
  entries : List DirEntry
deriving DecidableEq, Repr

/-- `str.startswith(pre)`. -/
def pyStartsWith (s pre : String) : Bool := pre.data.isPrefixOf s.data

/-- Replacement loop behind `pyReplace`, with fuel bounding the scan. -/
def pyReplaceAux (rep pat : List Char) : ℕ → List Char → List Char
  | 0, s => s
  | _ + 1, [] => []
  | fuel + 1, c :: rest =>
      if pat.isPrefixOf (c :: rest) ∧ pat ≠ [] then
        rep ++ pyReplaceAux rep pat fuel ((c :: rest).drop pat.length)
      else c :: pyReplaceAux rep pat fuel rest

/-- Python `str.replace(pat, rep)`: replaces every non-overlapping
occurrence left to right (for the non-empty patterns the sources use). -/
def pyReplace (s pat rep : String) : String :=
  ⟨pyReplaceAux rep.data pat.data s.data.length s.data⟩

/-- The rows an imageset directory contributes to `tags_df`: one per entry
whose name starts with the metadata prefix, keyed by
`(imageset_path, image_id)` with
`image_id = name.replace(prefix, '').replace(suffix, '')`. -/
def scanRows (pre suf : String) (d : ImagesetDir) : List TagRow :=
  (d.entries.filter fun e => pyStartsWith e.name pre).map
    fun e => ((d.path, pyReplace (pyReplace e.name pre "") suf ""), e.tags)

/-- `DefaultDatasetWriter.load_image_ids`: reads the metadata
prefix/suffix, raises for non-`.json` suffixes before any directory is
scanned, otherwise scans every imageset directory accumulating `tags_df`
and sets `image_ids` to the row index. -/
def load_image_ids (w : DatasetWriterState) (dirs : List ImagesetDir) :
    List Event × Except PyErr DatasetWriterState :=
  match lookup? w.associated_files "metadata" with
  | some (.pair pre suf) =>
    if suf ≠ ".json" then
      ([], .error (.unsupportedMetadataFormat
        "Currently non-json metadata files are not supported for the default loading of image ids"))
    else
      let rows := (dirs.map (scanRows pre suf)).flatten
      (dirs.map fun d => Event.scanDir d.path,
       .ok { w with tags_df := rows
                    image_ids := some (rows.map fun r => ([r.1.1], r.1.2)) })
  | _ => ([], .error (.keyError "metadata"))

/-- Modelled from the spec: `copy_data_locally` of `ravenml/data/helpers.py`
(absent from the sources), §4.2 Materialize — copies, for every
`(imageset_path, image_id)` pair, all files associated with that id into
the destination directory. -/
def copy_data_locally (image_ids : List (PyPath × String)) (dst : PyPath) :
    List Event :=
  image_ids.map fun p => Event.copyFiles p.2 dst

/-- `DefaultDatasetWriter.load_data`:
`copy_data_locally(self.image_ids, self.temp_dir, self.associated_files)`. -/
def load_data (w : DatasetWriterState) : List Event :=
  copy_data_locally (w.image_ids.getD []) w.temp_dir

/-- `DefaultDatasetWriter.write_out_complete_set(self, path, data)`:
binds `data_path = path / 'train'`, creates it when missing, splits `data`
into `test_data, train_data`, and calls
`self.write_data(train_data, data_path, split_type='train')` and
`self.write_data(test_data, data_path, split_type='test')` — both with the
same `data_path`.  `trainDirExists` stands for
`os.path.exists(data_path)`. -/
def write_out_complete_set (w : DatasetWriterState) (path : PyPath)
    (data : List CObj) (trainDirExists : Bool) :
    List Event × Except PyErr Unit :=
  let data_path := path ++ ["train"]
  let evs0 := if trainDirExists then [] else [Event.makedirs data_path]
  match split_data data w.test_percent with
  | .error e => (evs0, .error e)
  | .ok td =>
      (evs0 ++ [Event.writeData (td.2.map CObj.image_id) data_path "train",
                Event.writeData (td.1.map CObj.image_id) data_path "test"],
       .ok ())

/-- `DefaultDatasetWriter.write_dataset(self, obj_list)`: prints the
dataset path, splits `obj_list` into `test_subset, dev_subset`, makes the
`test` directory and copies the test subset's files there, then calls
`write_out_complete_set` on `splits/complete` with the dev subset. -/
def write_dataset (w : DatasetWriterState) (obj_list : List CObj)
    (trainDirExists : Bool) : List Event × Except PyErr Unit :=
  let dataset_path := w.dataset_path ++ [w.dataset_name]
  let evs0 := [Event.echo (String.intercalate "/" dataset_path)]
  match split_data obj_list w.test_percent with
  | .error e => (evs0, .error e)
  | .ok sd =>
      let test_path := dataset_path ++ ["test"]
      let evs1 := Event.mkdir test_path ::
        copy_data_locally (sd.1.map fun o => (w.temp_dir, o.image_id)) test_path
      let inner := write_out_complete_set w (dataset_path ++ ["splits", "complete"])
        sd.2 trainDirExists
      (evs0 ++ evs1 ++ inner.1, inner.2)

/-! ## Metadata serialization (`write_metadata`)

`DefaultDatasetWriter.write_metadata` executes
`with open(metadata_filepath, 'w') as outfile: json.dump(metadata, outfile)`:
the file is created (truncated) when opened, and `json.dump` streams the
serialization into it chunk by chunk, raising `TypeError` at the first
non-serializable value with everything before it already written.  The
model mirrors the exact value shapes of the metadata dict; a plugin-set
`image_id` value may be any Python object, hence possibly
non-serializable. -/

/-- A leaf value inside the metadata: a string, or a non-JSON-serializable
Python object (on which `json.dump` raises `TypeError`). -/
inductive JLeaf where
  | js (s : String)
  | jbad (tag : Nat)
deriving DecidableEq, Repr

/-- A value of the metadata dict: a string, the `image_ids` list of
`(imageset_label, record_id)` tuples, or the `filters` dict of groups. -/
inductive JVal where
  | jstr (s : String)
  | jpairs (xs : List (String × JLeaf))
  | jgroupsObj (groups : FilterMeta)
deriving DecidableEq, Repr

/-- JSON string quoting (escapes are irrelevant to the claims). -/
def jquote (s : String) : String := "\"" ++ s ++ "\""

/-- Incremental serialization of one leaf:
`(text written, did it succeed)`. -/
def dumpLeaf : JLeaf → String × Bool
  | .js s => (jquote s, true)
  | .jbad _ => ("", false)

/-- Incremental serialization of one `(label, id)` tuple (a JSON array):
on failure the opening bracket and the label are already written. -/
def dumpPair (p : String × JLeaf) : String × Bool :=
  let r := dumpLeaf p.2
  ("[" ++ jquote p.1 ++ ", " ++ r.1 ++ (if r.2 then "]" else ""), r.2)

/-- Incremental serialization of the elements of the `image_ids` array,
separated by `", "`; stops at the first failure. -/
def dumpPairSeq : List (String × JLeaf) → Bool → String × Bool
  | [], _ => ("", true)
  | p :: ps, first =>
      let sep := if first then "" else ", "
      let r := dumpPair p
      if r.2 then
        let rest := dumpPairSeq ps false
        (sep ++ r.1 ++ rest.1, rest.2)
      else (sep ++ r.1, false)

/-- Serialization of the `filters` dict (group lists hold plain strings,
so this part cannot fail). -/
def dumpGroups (gs : FilterMeta) : String :=
  "\x7b" ++ String.intercalate ", "
    (gs.map fun g =>
      jquote g.1 ++ ": [" ++ String.intercalate ", " (g.2.map jquote) ++ "]") ++ "\x7d"

/-- Incremental serialization of one metadata value. -/
def dumpVal : JVal → String × Bool
  | .jstr s => (jquote s, true)
  | .jpairs xs =>
      let r := dumpPairSeq xs true
      ("[" ++ r.1 ++ (if r.2 then "]" else ""), r.2)
  | .jgroupsObj gs => (dumpGroups gs, true)

/-- Incremental serialization of the fields of the metadata dict: each key
is written before its value is attempted, so a failing value leaves its key
and `": "` in the file. -/
def dumpFields : List (String × JVal) → Bool → String × Bool
  | [], _ => ("", true)
  | (k, v) :: fs, first =>
      let sep := if first then "" else ", "
      let r := dumpVal v
      if r.2 then
        let rest := dumpFields fs false
        (sep ++ jquote k ++ ": " ++ r.1 ++ rest.1, rest.2)
      else (sep ++ jquote k ++ ": " ++ r.1, false)

/-- `json.dump` of the metadata dict into the opened file:
`(file content after the call, did serialization complete)`. -/
def json_dump_obj (fields : List (String × JVal)) : String × Bool :=
  let r := dumpFields fields true
  ("\x7b" ++ r.1 ++ (if r.2 then "\x7d" else ""), r.2)

/-- The metadata dict `DefaultDatasetWriter.write_metadata` builds, in
field order; `image_ids` entries are `(image_id[0].name, image_id[1])`
with the id value possibly plugin-supplied. -/
def metadataFields (name date created_by comments training_type : String)
    (image_ids : List (String × JLeaf)) (filters : FilterMeta) :
    List (String × JVal) :=
  [("name", .jstr name), ("date_created", .jstr date),
   ("created_by", .jstr created_by), ("comments", .jstr comments),
   ("training_type", .jstr training_type), ("image_ids", .jpairs image_ids),
   ("filters", .jgroupsObj filters)]

/-- Result of one `write_metadata` call: the trace (the file is opened for
writing in every case), the content `metadata.json` holds afterwards (the
file exists with this content whether or not serialization completed), and
whether serialization completed. -/
structure MetadataWriteResult where
  trace : List Event
  disk : Option String
  ok : Bool
deriving DecidableEq, Repr

/-- `DefaultDatasetWriter.write_metadata(self)`: writes the metadata dict
to `<dataset_path>/<dataset_name>/metadata.json` by opening the file and
streaming `json.dump` into it. -/
def write_metadata_model (dataset_path : PyPath)
    (dataset_name date created_by comments training_type : String)
    (image_ids : List (String × JLeaf)) (filters : FilterMeta) :
    MetadataWriteResult :=
  let metadata_filepath := dataset_path ++ [dataset_name, "metadata.json"]
  let dump := json_dump_obj
    (metadataFields dataset_name date created_by comments training_type
      image_ids filters)
  { trace := [Event.writeFile metadata_filepath]
    disk := some dump.1
    ok := dump.2 }

/-- `Path.name`: the last component of a path. -/
def pathName (p : PyPath) : String := p.getLast?.getD ""

/-- `DefaultDatasetWriter.write_metadata` as invoked on the writer state
(its `image_ids` as set by the default `load_image_ids` are strings). -/
def write_metadata_of (w : DatasetWriterState) (date : String) :
    MetadataWriteResult :=
  write_metadata_model w.dataset_path w.dataset_name date w.created_by
    w.comments w.plugin_name
    ((w.image_ids.getD []).map fun p => (pathName p.1, .js p.2))
    w.filter_metadata

/-! ## The creation context (`ravenml/data/interfaces.py`) -/

/-- The configuration dict handed to `CreateInput`.  `created_by` and
`comments` live in the nested `metadata` sub-dict of the source config;
`overwrite_local` and `plugin` are read for truthiness only. -/
structure Config where
  dataset_path : Option String
  overwrite_local : Bool
  imageset : Option (List String)
  created_by : Option String
  comments : Option String
  kfolds : Option ℕ
  test_percent : Option Ratio
  dataset_name : Option String
  plugin : Bool
  upload : Option Bool
  delete_local : Option Bool
deriving DecidableEq, Repr

/-- Python truthiness of an optional string (absent or empty is falsy). -/
def strTruthy : Option String → Bool
  | some s => s ≠ ""
  | none => false

/-- The filesystem facts `CreateInput` consults about the configured
`dataset_path`: `os.path.exists(dp)`, `os.path.isdir(dp)`,
`len(os.listdir(dp)) > 0`. -/
structure FS where
  dpExists : Bool
  dpIsDir : Bool
  dpNonempty : Bool
deriving DecidableEq, Repr

/-- Answers the interaction oracle would give if called. -/
structure Oracle where
  confirm : Bool
  text : String
  select : List String
deriving DecidableEq, Repr

/-- The data `default_filter_and_load` resolves (its computation lives in
the absent `helpers.py`): the selected `(imageset_label, record_id)` pairs
and the filter groups. -/
structure ImagesetData where
  image_ids : List (String × String)
  filter_metadata : FilterMeta
deriving DecidableEq, Repr

/-- Modelled from the spec: `default_filter_and_load` of
`ravenml/data/helpers.py` (absent from the sources) — downloads the
configured imagesets from the remote store and derives the batch filter
result; per §6, the interaction oracle is used only when configuration
omits required choices, so this batch path makes no oracle calls.  Its
result is the abstract `data` argument. -/
def default_filter_and_load (data : ImagesetData) : List Event × ImagesetData :=
  ([Event.remote "default_filter_and_load"], data)

/-- The state a successfully constructed `CreateInput` holds (attributes
plus the metadata dict entries the pipeline reads later). -/
structure CreateInputState where
  dataset_path : PyPath
  dataset_name : String
  created_by : String
  comments : String
  kfolds : Option ℕ
  test_percent : Option Ratio
  imagesets_used : List String
  image_ids : List (String × String)
  filter_metadata : FilterMeta
  plugin_name : String
deriving DecidableEq, Repr

/-- Lines 51–69 of `interfaces.py`: resolve the artifact path.  Without a
configured `dataset_path` the plugin cache's `temp` subpath is cleaned and
used; with one, a non-empty existing directory is removed after
`overwrite_local` or a confirmation prompt (a declined prompt exits), and
the directory is then (re)created. -/
def ci_dataset_path (c : Config) (fs : FS) (oracle : Oracle) :
    List Event × Except PyErr PyPath :=
  match c.dataset_path with
  | none =>
      ([Event.cacheOp "ensure_clean_subpath temp",
        Event.cacheOp "ensure_subpath_exists temp"],
       .ok ["<plugin_cache>", "temp"])
  | some dp =>
      if fs.dpExists && fs.dpIsDir && fs.dpNonempty then
        if c.overwrite_local then
          ([Event.rmtree [dp], Event.makedirs [dp]], .ok [dp])
        else if oracle.confirm then
          ([Event.prompt "confirm"
              "Local artifact storage location contains old data. Overwrite?",
            Event.rmtree [dp], Event.makedirs [dp]], .ok [dp])
        else
          ([Event.prompt "confirm"
              "Local artifact storage location contains old data. Overwrite?",
            Event.echo "Dataset creation cancelled."], .error .exit)
      else ([Event.makedirs [dp]], .ok [dp])

/-- The validation loop of lines 78–81: each configured imageset name is
checked against `get_imageset_names()` (one remote call per iteration);
an unknown name raises `BadParameter`. -/
def ci_check_imagesets (avail : List String) : List String →
    List Event × Except PyErr Unit
  | [] => ([], .ok ())
  | x :: xs =>
      if avail.contains x then
        let rest := ci_check_imagesets avail xs
        (Event.remote "get_imageset_names" :: rest.1, rest.2)
      else ([Event.remote "get_imageset_names"],
            .error (.badParameter "imageset name, no such imageset exists on S3"))

/-- Lines 73–81: resolve the imageset list — prompt (under a spinner-run
remote listing) when none is configured, validate otherwise. -/
def ci_imageset (c : Config) (avail : List String) (oracle : Oracle) :
    List Event × Except PyErr (List String) :=
  match c.imageset with
  | none =>
      let sp := cli_spinner "No imageset provided. Finding imagesets on S3..."
        ([Event.remote "get_imageset_names"], (Except.ok () : Except PyErr Unit))
      (sp.1 ++ [Event.prompt "checkbox" "Choose imageset:"], .ok oracle.select)
  | some l =>
      let chk := ci_check_imagesets avail l
      (chk.1, chk.2.map fun _ => l)

/-- `CreateInput.__init__(self, config, plugin_name)`.  `now` stands for
`datetime.utcnow().isoformat()`, `imageset_data` for what
`default_filter_and_load` resolves. -/
def createInput (config : Option Config) (plugin_name : Option String)
    (fs : FS) (avail : List String) (oracle : Oracle) (now : String)
    (imageset_data : ImagesetData) :
    List Event × Except PyErr CreateInputState :=
  match config, plugin_name with
  | none, _ => ([], .error .usageError)
  | _, none => ([], .error .usageError)
  | some c, some pn =>
    let ⟨ev1, dpRes⟩ := ci_dataset_path c fs oracle
    match dpRes with
    | .error e => (ev1, .error e)
    | .ok dp =>
      let ⟨ev2, isRes⟩ := ci_imageset c avail oracle
      match isRes with
      | .error e => (ev1 ++ ev2, .error e)
      | .ok imageset_list =>
        let ⟨ev3, created_by⟩ :=
          if strTruthy c.created_by then ([], c.created_by.getD "")
          else ([Event.prompt "input" "Please enter your first and last name:"],
                oracle.text)
        let ⟨ev4, comments⟩ :=
          if strTruthy c.comments then ([], c.comments.getD "")
          else ([Event.prompt "input"
                  "Please enter descriptive comments about this training:"],
                oracle.text)
        let kfolds := match c.kfolds with
          | some k => if k ≠ 0 then some k else none
          | none => none
        let test_percent := match c.test_percent with
          | some p => if p.num ≠ 0 then some p else none
          | none => none
        let ⟨ev5, dataset_name⟩ :=
          if strTruthy c.dataset_name then ([], c.dataset_name.getD "")
          else ([Event.prompt "input" "What would you like to name this dataset?"],
                oracle.text)
        let ev6 := [Event.makedirs (dp ++ [dataset_name])]
        let ⟨ev7, loaded⟩ := default_filter_and_load imageset_data
        if c.plugin then
          let wm := write_metadata_model dp dataset_name now created_by comments
            pn (loaded.image_ids.map fun p => (p.1, .js p.2))
            loaded.filter_metadata
          (ev1 ++ ev2 ++ ev3 ++ ev4 ++ ev5 ++ ev6 ++ ev7 ++ wm.trace,
           .ok { dataset_path := dp
                 dataset_name := dataset_name
                 created_by := created_by
                 comments := comments
                 kfolds := kfolds
                 test_percent := test_percent
                 imagesets_used := imageset_list
                 image_ids := loaded.image_ids
                 filter_metadata := loaded.filter_metadata
                 plugin_name := pn })
        else
          (ev1 ++ ev2 ++ ev3 ++ ev4 ++ ev5 ++ ev6 ++ ev7,
           .error (.badParameter "config, no \"plugin\" field. Config was"))

/-- `CreateOutput.__init__(self, create)`: `upload` and `delete_local` are
taken from the config when the keys are present (regardless of
truthiness), otherwise prompted. -/
def createOutput (c : Config) (dataset_name : String) (oracle : Oracle) :
    List Event × (Bool × Bool) :=
  let up := match c.upload with
    | some b => (([] : List Event), b)
    | none => ([Event.prompt "confirm" "Would you like to upload the dataset to S3?"],
               oracle.confirm)
  let del := match c.delete_local with
    | some b => (([] : List Event), b)
    | none => ([Event.prompt "confirm"
                 ("Would you like to delete your " ++ dataset_name ++ " dataset?")],
               oracle.confirm)
  (up.1 ++ del.1, (up.2, del.2))

/-! ## One dataset-creation run -/

/-- Modelled from the spec: `default_filter` of `ravenml/data/helpers.py`
(absent from the sources), §4.3 Filter Engine — with no predicates
configured every record is selected in first-seen order and recorded as a
single group. -/
def default_filter (tags : List TagRow) (fm : FilterMeta) :
    List (PyPath × String) × FilterMeta :=
  (tags.map fun r => ([r.1.1], r.1.2),
   fm.map fun g => if g.1 = "groups" then (g.1, g.2 ++ ["complete"]) else g)

/-- `DefaultDatasetWriter.interactive_filter`:
`self.image_ids = default_filter(self.tags_df, self.filter_metadata)`
(the filter helper also fills the groups of `filter_metadata`). -/
def interactive_filter (w : DatasetWriterState) : DatasetWriterState :=
  let r := default_filter w.tags_df w.filter_metadata
  { w with image_ids := some r.1, filter_metadata := r.2 }

/-- One full dataset-creation run: `CreateInput` construction, then the
pipeline stages in order on a `DefaultDatasetWriter` — `load_image_ids`,
`interactive_filter`, `load_data` (spinner-wrapped), the plugin's
`construct_all` (pure, yielding `objs`), `write_dataset` (spinner-wrapped),
`write_metadata` (spinner-wrapped), `write_additional_files`
(spinner-wrapped, plugin-supplied as `extras`).  The run stops at the
first raised exception.  `kfolds`/`test_percent`/`temp_dir` reach the
writer through the plugin's configuration. -/
def defaultRun (config : Config) (plugin_name : String) (fs : FS)
    (avail : List String) (oracle : Oracle) (now : String)
    (imageset_data : ImagesetData) (kfolds : ℕ) (test_percent : Ratio)
    (temp_dir : PyPath) (af : AssocFiles) (dirs : List ImagesetDir)
    (objs : List CObj) (trainDirExists : Bool)
    (extras : List Event × Except PyErr Unit) :
    List Event × Except PyErr Unit :=
  let ci := createInput (some config) (some plugin_name) fs avail oracle now
    imageset_data
  match ci.2 with
  | .error e => (ci.1, .error e)
  | .ok st =>
    let wc : WriterCreate :=
      { kfolds := kfolds
        test_percent := test_percent
        temp_dir_path := temp_dir
        dataset_path := st.dataset_path
        dataset_name := st.dataset_name
        created_by := st.created_by
        comments := st.comments
        architecture := plugin_name
        imageset_paths := st.imagesets_used }
    match DefaultDatasetWriter.construct wc af with
    | .error e => (ci.1, .error e)
    | .ok w =>
      let s1 := load_image_ids w dirs
      match s1.2 with
      | .error e => (ci.1 ++ s1.1, .error e)
      | .ok w1 =>
        let w2 := interactive_filter w1
        let s3 := cli_spinner "Copying data into temp folder..."
          (load_data w2, (Except.ok () : Except PyErr Unit))
        let s5 := cli_spinner "Writing out dataset locally..."
          (write_dataset w2 objs trainDirExists)
        match s5.2 with
        | .error e => (ci.1 ++ s1.1 ++ s3.1 ++ s5.1, .error e)
        | .ok _ =>
          let wm := write_metadata_of w2 now
          let s6 := cli_spinner "Writing out metadata locally..."
            (wm.trace,
             if wm.ok then (Except.ok () : Except PyErr Unit)
             else .error (.exception "TypeError"))
          match s6.2 with
          | .error e => (ci.1 ++ s1.1 ++ s3.1 ++ s5.1 ++ s6.1, .error e)
          | .ok _ =>
            let s7 := cli_spinner "Writing out additional files..." extras
            (ci.1 ++ s1.1 ++ s3.1 ++ s5.1 ++ s6.1 ++ s7.1, s7.2)

/-- Is an event a write of a file named `metadata.json`? -/
def isMetadataWrite : Event → Bool
  | .writeFile p => p.getLast? = some "metadata.json"
  | _ => false

/-- The `metadata.json` writes occurring in a trace. -/
def metadataWrites (tr : List Event) : List Event :=
  tr.filter isMetadataWrite

/-- The write events a trace performs into a given directory. -/
def writesInto (tr : List Event) (dir : PyPath) : List Event :=
  tr.filter fun e =>
    match e with
    | .writeData _ p _ => p = dir
    | .copyFiles _ p => p = dir
    | _ => false

/-- The `makedirs`/`mkdir` events of a trace. -/
def dirCreations (tr : List Event) : List Event :=
  tr.filter fun e =>
    match e with
    | .makedirs _ => true
    | .mkdir _ => true
    | _ => false

/-! ## Concrete fixtures used by witnesses and counterexamples -/

/-- A fully specified configuration: 10 objects at `test_percent = 0.2`. -/
def cfgFull : Config :=
  { dataset_path := some "root"
    overwrite_local := true
    imageset := some ["setA"]
    created_by := some "Ada"
    comments := some "demo"
    kfolds := some 5
    test_percent := some ⟨1, 5⟩
    dataset_name := some "ds"
    plugin := true
    upload := some true
    delete_local := some false }

/-- `cfgFull` with the out-of-range `test_percent = 1.5`. -/
def cfg15 : Config := { cfgFull with test_percent := some ⟨3, 2⟩ }

/-- Filesystem state: the configured dataset path does not exist yet. -/
def fs0 : FS := ⟨false, false, false⟩

/-- Some fixed oracle answers. -/
def oracle0 : Oracle := ⟨true, "typed", []⟩

/-- The imagesets available on the remote store. -/
def avail0 : List String := ["setA"]

/-- What `default_filter_and_load` resolves in the fixture run. -/
def isd0 : ImagesetData := ⟨[("setA", "img1")], [("groups", [])]⟩

/-- An `associated_files` dict with a json metadata convention. -/
def af0 : AssocFiles := [("metadata", .pair "meta_" ".json"), ("image", .pair "img_" ".png")]

/-- One imageset directory with one metadata file. -/
def dirs0 : List ImagesetDir :=
  [⟨"setA", [⟨"meta_img1.json", [("tagA", true)]⟩, ⟨"img_img1.png", []⟩]⟩]

/-- Ten constructed objects. -/
def objs10 : List CObj :=
  [⟨"o1"⟩, ⟨"o2"⟩, ⟨"o3"⟩, ⟨"o4"⟩, ⟨"o5"⟩, ⟨"o6"⟩, ⟨"o7"⟩, ⟨"o8"⟩, ⟨"o9"⟩, ⟨"o10"⟩]

/-- A writer state configured like the fixture run
(`test_percent = 0.2`, dataset root `root/ds`). -/
def w10 : DatasetWriterState :=
  { associated_files := af0
    num_folds := 5
    test_percent := ⟨1, 5⟩
    temp_dir := ["tmp"]
    dataset_path := ["root"]
    dataset_name := "ds"
    created_by := "Ada"
    comments := "demo"
    plugin_name := "plug"
    imageset_paths := ["setA"]
    tags_df := []
    image_ids := none
    filter_metadata := [("groups", [])] }

/-- `w10` with a non-json metadata convention. -/
def wTxt : DatasetWriterState :=
  { w10 with associated_files := [("metadata", .pair "meta_" ".txt")] }

/-- The base class dict: `write_dataset` decorated by `cli_spinner_wrapper`. -/
def baseDict : ClassDict :=
  [("write_dataset",
    .deco .cliSpinnerWrapper (.str "Writing out dataset locally...") .falsy (.base 0))]

/-- A subclass dict rebinding `write_dataset` with its own, different
wrapper. -/
def subDictCustom : ClassDict :=
  [("write_dataset", .deco (.custom 7) (.str "plugin speak") .falsy (.base 1))]

/-- A subclass dict overriding `write_dataset` with a raw method. -/
def subDictRaw : ClassDict := [("write_dataset", .base 1)]

/-- Plugin method bodies that run silently and succeed. -/
def bodies0 : ℕ → List Event × Except PyErr Unit := fun _ => ([], Except.ok ())

/-- The keys of a registry or class dict are pairwise distinct (true of
every Python dict; used as a hypothesis on abstract registries). -/
def keysNodup {β : Type} (l : List (String × β)) : Prop :=
  (l.map Prod.fst).Nodup

instance {β : Type} (l : List (String × β)) : Decidable (keysNodup l) := by
  unfold keysNodup
  infer_instance

/-! ## Helper lemmas -/

theorem lookup_append_some {β : Type} {l₁ : List (String × β)}
    (l₂ : List (String × β)) {k : String} {e : β}
    (h : lookup? l₁ k = some e) : lookup? (l₁ ++ l₂) k = some e := by
  induction l₁ with
  | nil => simp [lookup?] at h
  | cons a t ih =>
      rw [List.cons_append]
      cases a with
      | mk k' v =>
          simp only [lookup?] at h ⊢
          by_cases hk : k' = k
          · simpa [hk] using h
          · simp only [hk, if_false] at h ⊢
            exact ih h

theorem lookup_none_not_mem {β : Type} {l : List (String × β)} {k : String}
    (h : lookup? l k = none) : k ∉ l.map Prod.fst := by
  induction l with
  | nil => simp
  | cons a t ih =>
      cases a with
      | mk k' v =>
          simp only [lookup?] at h
          by_cases hk : k' = k
          · simp [hk] at h
          · simp only [hk, if_false] at h
            simp only [List.map_cons, List.mem_cons]
            rintro (rfl | hm)
            · exact hk rfl
            · exact ih h hm

theorem lookup_not_mem_none {β : Type} {l : List (String × β)} {k : String}
    (h : k ∉ l.map Prod.fst) : lookup? l k = none := by
  induction l with
  | nil => rfl
  | cons a t ih =>
      cases a with
      | mk k' v =>
          simp only [List.map_cons, List.mem_cons] at h
          push_neg at h
          have hk : k' ≠ k := fun hh => h.1 hh.symm
          simp only [lookup?, hk, if_false]
          exact ih h.2

theorem lookup_setAttr_self {d : ClassDict} {k : String} (m : Method) :
    lookup? (setAttr d k m) k = some m := by
  induction d with
  | nil => simp [setAttr, lookup?]
  | cons a t ih =>
      cases a with
      | mk k' v =>
          by_cases hk : k' = k
          · simp [setAttr, hk, lookup?]
          · simp [setAttr, hk, lookup?, ih]

theorem lookup_setAttr_ne {d : ClassDict} {k nm : String} (m : Method)
    (h : k ≠ nm) : lookup? (setAttr d k m) nm = lookup? d nm := by
  induction d with
  | nil => simp [setAttr, lookup?, h]
  | cons a t ih =>
      cases a with
      | mk k' v =>
          by_cases hk : k' = k
          · subst hk
            simp [setAttr, lookup?, h]
          · simp [setAttr, hk, lookup?, ih]

theorem lookup_buildRegistry_some {reg : Registry} {nm : String} {e : RegEntry}
    (d : ClassDict) (h : lookup? reg nm = some e) :
    lookup? (buildRegistry reg d) nm = some e := by
  induction d generalizing reg with
  | nil => simpa [buildRegistry] using h
  | cons a t ih =>
      cases a with
      | mk k m =>
          rw [buildRegistry]
          apply ih
          cases hd : m.inheritDecorator with
          | none => simpa using h
          | some dec =>
              simp only
              by_cases hl : lookup? reg k = none
              · simp only [hl, if_pos rfl]
                exact lookup_append_some _ h
              · simpa [hl] using h

theorem keysNodup_buildRegistry {reg : Registry} (d : ClassDict)
    (h : keysNodup reg) : keysNodup (buildRegistry reg d) := by
  induction d generalizing reg with
  | nil => simpa [buildRegistry] using h
  | cons a t ih =>
      cases a with
      | mk k m =>
          rw [buildRegistry]
          apply ih
          cases hd : m.inheritDecorator with
          | none => simpa using h
          | some dec =>
              simp only
              by_cases hl : lookup? reg k = none
              · simp only [hl, if_pos rfl]
                have hk := lookup_none_not_mem hl
                unfold keysNodup at h ⊢
                simp [List.nodup_append, h, hk]
              · simpa [hl] using h

theorem applyRegistry_unregistered {reg : Registry} {nm : String}
    (d : ClassDict) (h : lookup? reg nm = none) :
    lookup? (applyRegistry reg d) nm = lookup? d nm := by
  induction reg generalizing d with
  | nil => simp [applyRegistry]
  | cons a t ih =>
      cases a with
      | mk k e =>
          simp only [lookup?] at h
          by_cases hk : k = nm
          · simp [hk] at h
          · simp only [hk, if_false] at h
            rw [applyRegistry]
            cases hm : lookup? d k with
            | none => exact ih d h
            | some m =>
                simp only
                by_cases hc : m.inheritDecorator ≠ some e.dec
                · rw [if_pos hc, ih _ h, lookup_setAttr_ne _ hk]
                · rw [if_neg hc]
                  exact ih d h

theorem lookup_applyRegistry {reg : Registry} {nm : String} {e : RegEntry}
    (d : ClassDict) (hnd : keysNodup reg) (h : lookup? reg nm = some e) :
    lookup? (applyRegistry reg d) nm =
      match lookup? d nm with
      | some m =>
          some (if m.inheritDecorator ≠ some e.dec then redecorate e m else m)
      | none => none := by
  induction reg generalizing d with
  | nil => simp [lookup?] at h
  | cons a t ih =>
      cases a with
      | mk k e' =>
          unfold keysNodup at hnd
          simp only [List.map_cons, List.nodup_cons] at hnd
          simp only [lookup?] at h
          by_cases hk : k = nm
          · subst hk
            rw [if_pos rfl] at h
            injection h with h
            subst h
            have ht : lookup? t k = none := lookup_not_mem_none hnd.1
            rw [applyRegistry]
            cases hm : lookup? d k with
            | none =>
                simp only
                rw [applyRegistry_unregistered d ht, hm]
            | some m =>
                simp only
                by_cases hc : m.inheritDecorator ≠ some e'.dec
                · rw [if_pos hc, applyRegistry_unregistered _ ht,
                      lookup_setAttr_self, if_pos hc]
                · rw [if_neg hc, applyRegistry_unregistered _ ht, hm, if_neg hc]
          · simp only [hk, if_false] at h
            rw [applyRegistry]
            cases hm : lookup? d k with
            | none => exact ih _ hnd.2 h
            | some m =>
                simp only
                by_cases hc : m.inheritDecorator ≠ some e'.dec
                · rw [if_pos hc, ih _ hnd.2 h, lookup_setAttr_ne _ hk]
                · rw [if_neg hc]
                  exact ih _ hnd.2 h

theorem countSpinnerStarts_append (a b : List Event) :
    countSpinnerStarts (a ++ b) = countSpinnerStarts a + countSpinnerStarts b := by
  simp [countSpinnerStarts, List.filter_append]

/-! ## Claim C2 -/

/-- C2, counterexample: a subclass (`subDictCustom`) rebinds the registered
stage `write_dataset` with a wrapper carrying a different
`inherit_decorator` (`custom 7`), yet the registry it ends up with still
holds the inherited `cli_spinner_wrapper` registration — the subclass's
wrapper does not replace it — and the method bound at call time is the
inherited wrapper applied on top of the subclass's wrapper, not the
most-derived wrapper alone. -/
theorem C2_counterexample :
    lookup? (initSubclass (initSubclass [] baseDict).1 subDictCustom).1
        "write_dataset" =
      some ⟨.cliSpinnerWrapper, .str "Writing out dataset locally...", .falsy⟩ ∧
    (lookup? (initSubclass (initSubclass [] baseDict).1 subDictCustom).1
        "write_dataset").map RegEntry.dec ≠ some (.custom 7) ∧
    lookup? (initSubclass (initSubclass [] baseDict).1 subDictCustom).2
        "write_dataset" =
      some (.deco .cliSpinnerWrapper (.str "Writing out dataset locally...") .falsy
        (.deco (.custom 7) (.str "plugin speak") .falsy (.base 1))) := by
  decide

/-- C2 (amended): when a subclass rebinds a registered stage name with its
own wrapper (a method carrying a different `inherit_decorator`), the
inherited registration is kept — it is not replaced in the registry — and
the method used at call time for the subclass is the inherited wrapper
re-applied on top of the subclass's wrapper; a further subclass that does
not bind the name inherits the same registration and receives no binding
of its own (so it dispatches to the subclass's re-wrapped method). -/
theorem C2_registry_keeps_inherited_entry
    (reg : Registry) (dict d2 : ClassDict) (nm : String) (e : RegEntry)
    (m : Method) (d' : Dec)
    (hnd : keysNodup reg)
    (hreg : lookup? reg nm = some e)
    (hm : lookup? dict nm = some m)
    (hid : m.inheritDecorator = some d')
    (hne : d' ≠ e.dec)
    (h2 : lookup? d2 nm = none) :
    lookup? (initSubclass reg dict).1 nm = some e ∧
    lookup? (initSubclass reg dict).2 nm = some (redecorate e m) ∧
    lookup? (initSubclass (initSubclass reg dict).1 d2).1 nm = some e ∧
    lookup? (initSubclass (initSubclass reg dict).1 d2).2 nm = none := by
  have hb : lookup? (buildRegistry reg dict) nm = some e :=
    lookup_buildRegistry_some dict hreg
  have hbn : keysNodup (buildRegistry reg dict) :=
    keysNodup_buildRegistry dict hnd
  have hcond : m.inheritDecorator ≠ some e.dec := by
    rw [hid]
    intro hc
    exact hne (Option.some.inj hc)
  have hb2 : lookup? (buildRegistry (buildRegistry reg dict) d2) nm = some e :=
    lookup_buildRegistry_some d2 hb
  have hbn2 : keysNodup (buildRegistry (buildRegistry reg dict) d2) :=
    keysNodup_buildRegistry d2 hbn
  refine ⟨hb, ?_, hb2, ?_⟩
  · show lookup? (applyRegistry (buildRegistry reg dict) dict) nm = _
    rw [lookup_applyRegistry dict hbn hb, hm]
    simp only [if_pos hcond]
  · show lookup? (applyRegistry (buildRegistry (buildRegistry reg dict) d2) d2) nm = _
    rw [lookup_applyRegistry d2 hbn2 hb2, h2]

/-- C2, witness: the amended statement evaluated on the concrete base
class / subclass fixture. -/
theorem C2_witness :
    (keysNodup (initSubclass [] baseDict).1 ∧
     lookup? (initSubclass [] baseDict).1 "write_dataset" =
       some ⟨.cliSpinnerWrapper, .str "Writing out dataset locally...", .falsy⟩ ∧
     lookup? subDictCustom "write_dataset" =
       some (.deco (.custom 7) (.str "plugin speak") .falsy (.base 1)) ∧
     (Method.deco (.custom 7) (.str "plugin speak") .falsy (.base 1)).inheritDecorator =
       some (.custom 7) ∧
     Dec.custom 7 ≠ Dec.cliSpinnerWrapper ∧
     lookup? ([] : ClassDict) "write_dataset" = none) ∧
    (lookup? (initSubclass (initSubclass [] baseDict).1 subDictCustom).1
        "write_dataset" =
       some ⟨.cliSpinnerWrapper, .str "Writing out dataset locally...", .falsy⟩ ∧
     lookup? (initSubclass (initSubclass [] baseDict).1 subDictCustom).2
        "write_dataset" =
       some (redecorate
         ⟨.cliSpinnerWrapper, .str "Writing out dataset locally...", .falsy⟩
         (.deco (.custom 7) (.str "plugin speak") .falsy (.base 1))) ∧
     lookup? (initSubclass (initSubclass (initSubclass [] baseDict).1
         subDictCustom).1 []).1 "write_dataset" =
       some ⟨.cliSpinnerWrapper, .str "Writing out dataset locally...", .falsy⟩ ∧
     lookup? (initSubclass (initSubclass (initSubclass [] baseDict).1
         subDictCustom).1 []).2 "write_dataset" = none) :=
  ⟨⟨by decide, by decide, by decide, by decide, by decide, by decide⟩,
   C2_registry_keeps_inherited_entry (initSubclass [] baseDict).1 subDictCustom []
     "write_dataset"
     ⟨.cliSpinnerWrapper, .str "Writing out dataset locally...", .falsy⟩
     (.deco (.custom 7) (.str "plugin speak") .falsy (.base 1))
     (.custom 7) (by decide) (by decide) (by decide) (by decide) (by decide)
     (by decide)⟩

/-! ## Claim C3 -/

/-- C3: a subclass that overrides a method whose name is in the inherited
decorator registry with a raw method (no wrapper of its own) gets, at call
time, `wrapper(wrapper_args)(subclass_method)` — here the registered
`cli_spinner_wrapper` with its text argument applied to the raw override —
rather than the raw override itself; running it starts the spinner exactly
once per invocation and propagates the override body's outcome. -/
theorem C3_override_inherits_wrapper
    (reg : Registry) (dict : ClassDict) (nm t : String) (i : ℕ)
    (bodies : ℕ → List Event × Except PyErr Unit)
    (hnd : keysNodup reg)
    (hreg : lookup? reg nm = some ⟨.cliSpinnerWrapper, .str t, .falsy⟩)
    (ht : t ≠ "")
    (hm : lookup? dict nm = some (.base i))
    (hb : countSpinnerStarts (bodies i).1 = 0) :
    lookup? (initSubclass reg dict).2 nm =
      some (.deco .cliSpinnerWrapper (.str t) .falsy (.base i)) ∧
    countSpinnerStarts
      (runMethod bodies (.deco .cliSpinnerWrapper (.str t) .falsy (.base i))).1 = 1 ∧
    (runMethod bodies (.deco .cliSpinnerWrapper (.str t) .falsy (.base i))).2 =
      (bodies i).2 := by
  have hbr : lookup? (buildRegistry reg dict) nm =
      some ⟨.cliSpinnerWrapper, .str t, .falsy⟩ :=
    lookup_buildRegistry_some dict hreg
  have hbn : keysNodup (buildRegistry reg dict) :=
    keysNodup_buildRegistry dict hnd
  refine ⟨?_, ?_, ?_⟩
  · show lookup? (applyRegistry (buildRegistry reg dict) dict) nm = _
    rw [lookup_applyRegistry dict hbn hbr, hm]
    simp [redecorate, PyAttr.truthy, ht, Method.inheritDecorator]
  · cases hres : (bodies i).2 with
    | error err =>
        simp only [runMethod, cli_spinner, hres]
        simp [countSpinnerStarts, List.filter_append] at hb ⊢
        exact hb
    | ok v =>
        simp only [runMethod, cli_spinner, hres]
        simp [countSpinnerStarts, List.filter_append] at hb ⊢
        exact hb
  · cases hres : (bodies i).2 with
    | error err => simp [runMethod, cli_spinner, hres]
    | ok v => simp [runMethod, cli_spinner, hres]

/-- C3, witness: the concrete base registry and a raw `write_dataset`
override. -/
theorem C3_witness :
    (keysNodup (initSubclass [] baseDict).1 ∧
     lookup? (initSubclass [] baseDict).1 "write_dataset" =
       some ⟨.cliSpinnerWrapper, .str "Writing out dataset locally...", .falsy⟩ ∧
     "Writing out dataset locally..." ≠ "" ∧
     lookup? subDictRaw "write_dataset" = some (.base 1) ∧
     countSpinnerStarts (bodies0 1).1 = 0) ∧
    (lookup? (initSubclass (initSubclass [] baseDict).1 subDictRaw).2
        "write_dataset" =
       some (.deco .cliSpinnerWrapper
         (.str "Writing out dataset locally...") .falsy (.base 1)) ∧
     countSpinnerStarts
       (runMethod bodies0
         (.deco .cliSpinnerWrapper
           (.str "Writing out dataset locally...") .falsy (.base 1))).1 = 1 ∧
     (runMethod bodies0
         (.deco .cliSpinnerWrapper
           (.str "Writing out dataset locally...") .falsy (.base 1))).2 =
       (bodies0 1).2) :=
  ⟨⟨by decide, by decide, by decide, by decide, by decide⟩,
   C3_override_inherits_wrapper (initSubclass [] baseDict).1 subDictRaw
     "write_dataset" "Writing out dataset locally..." 1
     bodies0 (by decide) (by decide) (by decide)
     (by decide) (by decide)⟩

/-! ## Claim C4 -/

/-- C4: if the wrapped function raises, `cli_spinner` announces failure —
its final spinner message is the configured text followed by `Failed.`,
so it ends in `Failed.` — and re-raises the original exception unchanged;
in particular it never returns normally in that case. -/
theorem C4_spinner_failure_propagates {α : Type} (text : String)
    (run : List Event × Except PyErr α) (e : PyErr)
    (h : run.2 = .error e) :
    (cli_spinner text run).2 = .error e ∧
    (cli_spinner text run).1.getLast? =
      some (.spinnerSucceed (text ++ "Failed.")) ∧
    "Failed.".data <:+ (text ++ "Failed.").data := by
  refine ⟨?_, ?_, ?_⟩
  · simp [cli_spinner, h]
  · show (cli_spinner text run).1.getLast? = _
    rw [show (cli_spinner text run).1 =
          (Event.spinnerStart text :: run.1) ++
            [Event.spinnerSucceed (text ++ "Failed.")] by
        simp [cli_spinner, h]]
    exact List.getLast?_concat _
  · rw [String.data_append]
    exact List.suffix_append _ _

/-- C4, witness: a failing thunk under the `write_dataset` spinner text. -/
theorem C4_witness :
    ((([] : List Event), (Except.error (PyErr.exception "boom") : Except PyErr Unit)).2 =
       Except.error (PyErr.exception "boom")) ∧
    ((cli_spinner "Writing out dataset locally..."
        (([] : List Event),
         (Except.error (PyErr.exception "boom") : Except PyErr Unit))).2 =
       Except.error (PyErr.exception "boom") ∧
     (cli_spinner "Writing out dataset locally..."
        (([] : List Event),
         (Except.error (PyErr.exception "boom") : Except PyErr Unit))).1.getLast? =
       some (.spinnerSucceed ("Writing out dataset locally..." ++ "Failed.")) ∧
     "Failed.".data <:+ ("Writing out dataset locally..." ++ "Failed.").data) :=
  ⟨rfl,
   C4_spinner_failure_propagates "Writing out dataset locally..."
     (([] : List Event), Except.error (PyErr.exception "boom"))
     (PyErr.exception "boom") rfl⟩

theorem ci_check_imagesets_all (avail : List String) (l : List String)
    (hall : ∀ x ∈ l, avail.contains x = true) :
    ci_check_imagesets avail l =
      (l.map fun _ => Event.remote "get_imageset_names", .ok ()) := by
  induction l with
  | nil => rfl
  | cons x xs ih =>
      have hx : avail.contains x = true := hall x (List.mem_cons_self _ _)
      rw [ci_check_imagesets, ih fun y hy => hall y (List.mem_cons_of_mem _ hy),
        if_pos hx]
      simp

theorem oracleCalls_ci_check (avail : List String) (l : List String) :
    oracleCalls (ci_check_imagesets avail l).1 = [] := by
  induction l with
  | nil => rfl
  | cons x xs ih =>
      rw [ci_check_imagesets]
      by_cases hx : avail.contains x = true
      · rw [if_pos hx]
        have h2 := ih
        simp [oracleCalls, Event.isPrompt] at h2 ⊢
        exact h2
      · rw [if_neg hx]
        simp [oracleCalls, Event.isPrompt]

/-- Evaluation of `CreateInput` construction on a fully specified
configuration whose imagesets all exist on the remote store: no prompts,
the directories are created, and the metadata skeleton is written at the
end of construction. -/
theorem createInput_full_eval (c : Config) (pn dp cb cm dn : String)
    (ims : List String) (fs : FS) (avail : List String) (oracle : Oracle)
    (now : String) (isd : ImagesetData)
    (h1 : c.dataset_path = some dp) (h2 : c.overwrite_local = true)
    (h3 : c.imageset = some ims)
    (hall : ∀ x ∈ ims, avail.contains x = true)
    (h4 : c.created_by = some cb) (hcb : cb ≠ "")
    (h5 : c.comments = some cm) (hcm : cm ≠ "")
    (h6 : c.dataset_name = some dn) (hdn : dn ≠ "")
    (h7 : c.plugin = true) :
    createInput (some c) (some pn) fs avail oracle now isd =
      ((if fs.dpExists && fs.dpIsDir && fs.dpNonempty then
          [Event.rmtree [dp], Event.makedirs [dp]]
        else [Event.makedirs [dp]]) ++
       (ims.map fun _ => Event.remote "get_imageset_names") ++
       [Event.makedirs [dp, dn], Event.remote "default_filter_and_load",
        Event.writeFile [dp, dn, "metadata.json"]],
       .ok { dataset_path := [dp]
             dataset_name := dn
             created_by := cb
             comments := cm
             kfolds := match c.kfolds with
               | some k => if k ≠ 0 then some k else none
               | none => none
             test_percent := match c.test_percent with
               | some p => if p.num ≠ 0 then some p else none
               | none => none
             imagesets_used := ims
             image_ids := isd.image_ids
             filter_metadata := isd.filter_metadata
             plugin_name := pn }) := by
  have hcb' : strTruthy (some cb) = true := by simp [strTruthy, hcb]
  have hcm' : strTruthy (some cm) = true := by simp [strTruthy, hcm]
  have hdn' : strTruthy (some dn) = true := by simp [strTruthy, hdn]
  by_cases hfs : (fs.dpExists && fs.dpIsDir && fs.dpNonempty) = true
  · simp [createInput, ci_dataset_path, ci_imageset, h1, h2, h3, h4, h5, h6,
      h7, hcb', hcm', hdn', hfs, ci_check_imagesets_all avail ims hall,
      default_filter_and_load, write_metadata_model, Except.map]
  · simp [createInput, ci_dataset_path, ci_imageset, h1, h2, h3, h4, h5, h6,
      h7, hcb', hcm', hdn', hfs, ci_check_imagesets_all avail ims hall,
      default_filter_and_load, write_metadata_model, Except.map]

theorem dumpPairSeq_mapped_ok (xs : List (PyPath × String)) (first : Bool) :
    (dumpPairSeq (xs.map fun p => (pathName p.1, JLeaf.js p.2)) first).2 = true := by
  induction xs generalizing first with
  | nil => rfl
  | cons a t ih => simp [dumpPairSeq, dumpPair, dumpLeaf, ih]

theorem write_metadata_of_ok (w : DatasetWriterState) (date : String) :
    (write_metadata_of w date).ok = true := by
  simp [write_metadata_of, write_metadata_model, json_dump_obj, metadataFields,
    dumpFields, dumpVal, dumpGroups, dumpPairSeq_mapped_ok]

theorem write_metadata_of_trace (w : DatasetWriterState) (date : String) :
    (write_metadata_of w date).trace =
      [Event.writeFile (w.dataset_path ++ [w.dataset_name, "metadata.json"])] :=
  rfl

@[simp] theorem metadataWrites_nil : metadataWrites [] = [] := rfl

@[simp] theorem metadataWrites_append (a b : List Event) :
    metadataWrites (a ++ b) = metadataWrites a ++ metadataWrites b := by
  simp [metadataWrites, List.filter_append]

@[simp] theorem metadataWrites_cons (e : Event) (l : List Event) :
    metadataWrites (e :: l) =
      if isMetadataWrite e then e :: metadataWrites l else metadataWrites l := by
  simp [metadataWrites, List.filter_cons]

@[simp] theorem isMetadataWrite_writeFile (p : PyPath) :
    isMetadataWrite (Event.writeFile p) =
      decide (p.getLast? = some "metadata.json") := rfl

@[simp] theorem isMetadataWrite_mkdir (p : PyPath) :
    isMetadataWrite (Event.mkdir p) = false := rfl

@[simp] theorem isMetadataWrite_makedirs (p : PyPath) :
    isMetadataWrite (Event.makedirs p) = false := rfl

@[simp] theorem isMetadataWrite_rmtree (p : PyPath) :
    isMetadataWrite (Event.rmtree p) = false := rfl

@[simp] theorem isMetadataWrite_copyFiles (i : String) (p : PyPath) :
    isMetadataWrite (Event.copyFiles i p) = false := rfl

@[simp] theorem isMetadataWrite_writeData (ids : List String) (p : PyPath)
    (s : String) : isMetadataWrite (Event.writeData ids p s) = false := rfl

@[simp] theorem isMetadataWrite_prompt (k m : String) :
    isMetadataWrite (Event.prompt k m) = false := rfl

@[simp] theorem isMetadataWrite_remote (d : String) :
    isMetadataWrite (Event.remote d) = false := rfl

@[simp] theorem isMetadataWrite_spinnerStart (t : String) :
    isMetadataWrite (Event.spinnerStart t) = false := rfl

@[simp] theorem isMetadataWrite_spinnerSucceed (t : String) :
    isMetadataWrite (Event.spinnerSucceed t) = false := rfl

@[simp] theorem isMetadataWrite_scanDir (d : String) :
    isMetadataWrite (Event.scanDir d) = false := rfl

@[simp] theorem isMetadataWrite_echo (m : String) :
    isMetadataWrite (Event.echo m) = false := rfl

theorem metadataWrites_take {l : List Event} (h : metadataWrites l = [])
    (n : ℕ) : metadataWrites (l.take n) = [] := by
  rw [metadataWrites, List.filter_eq_nil_iff] at h ⊢
  intro a ha
  exact h a (List.mem_of_mem_take ha)

@[simp] theorem metadataWrites_map_copy {α : Type} (g : α → String)
    (path : PyPath) (l : List α) :
    metadataWrites (l.map fun o => Event.copyFiles (g o) path) = [] := by
  induction l with
  | nil => rfl
  | cons a t ih => simpa using ih

@[simp] theorem metadataWrites_take_map_copy {α : Type} (g : α → String)
    (path : PyPath) (l : List α) (n : ℕ) :
    metadataWrites
      (List.take n (l.map fun o => Event.copyFiles (g o) path)) = [] :=
  metadataWrites_take (metadataWrites_map_copy g path l) n

@[simp] theorem metadataWrites_map_scan (dirs : List ImagesetDir) :
    metadataWrites (dirs.map fun d => Event.scanDir d.path) = [] := by
  induction dirs with
  | nil => rfl
  | cons a t ih => simpa using ih

@[simp] theorem metadataWrites_map_remote {α : Type} (d : String)
    (l : List α) :
    metadataWrites (l.map fun _ => Event.remote d) = [] := by
  induction l with
  | nil => rfl
  | cons a t ih => simpa using ih

@[simp] theorem metadataWrites_replicate_remote (n : ℕ) (d : String) :
    metadataWrites (List.replicate n (Event.remote d)) = [] := by
  induction n with
  | zero => rfl
  | succ k ih => simpa [List.replicate] using ih

@[simp] theorem metadataWrites_copy_data_locally
    (image_ids : List (PyPath × String)) (dst : PyPath) :
    metadataWrites (copy_data_locally image_ids dst) = [] := by
  simp [copy_data_locally]

@[simp] theorem metadataWrites_load_data (w : DatasetWriterState) :
    metadataWrites (load_data w) = [] := by
  simp [load_data]

@[simp] theorem metadataWrites_ite (c : Prop) [Decidable c]
    (a b : List Event) :
    metadataWrites (if c then a else b) =
      if c then metadataWrites a else metadataWrites b :=
  apply_ite metadataWrites c a b

/-! ## Claim C1 -/

/-- C1, counterexample: in the fixture run (10 objects,
`test_percent = 0.2`), `write_dataset` performs no write into
`<dataset_root>/splits/complete/test/` at all — both leaf splits are handed
to `write_data` with the single directory
`<dataset_root>/splits/complete/train/` (the 6-object train split and the
2-object test split differ only in their `split_type` argument), refuting
the claimed two distinct leaf directories. -/
theorem C1_counterexample :
    writesInto (write_dataset w10 objs10 false).1
      ["root", "ds", "splits", "complete", "test"] = [] ∧
    writesInto (write_dataset w10 objs10 false).1
      ["root", "ds", "splits", "complete", "train"] =
      [Event.writeData ["o5", "o6", "o7", "o8", "o9", "o10"]
         ["root", "ds", "splits", "complete", "train"] "train",
       Event.writeData ["o3", "o4"]
         ["root", "ds", "splits", "complete", "train"] "test"] ∧
    writesInto (write_dataset w10 objs10 false).1 ["root", "ds", "test"] =
      [Event.copyFiles "o1" ["root", "ds", "test"],
       Event.copyFiles "o2" ["root", "ds", "test"]] := by
  decide

/-- C1 (amended): `write_dataset` first holds out a test subset
(`heldCount` of the objects) whose files are copied under
`<dataset_root>/test/`, then splits the remaining dev subset again with the
same `test_percent` — but writes the two leaf splits via `write_data` into
the one directory `<dataset_root>/splits/complete/train/`, distinguishing
them only by the `split_type` argument (`'train'` for the remainder,
`'test'` for the held-out part); no `splits/complete/test/` directory is
written.  With 10 objects and `test_percent = 0.2` this puts 2 objects
under `test/` and passes 6 train objects and 2 test objects to
`write_data`, both with the `splits/complete/train/` path. -/
theorem C1_single_split_directory (w : DatasetWriterState) (objs : List CObj)
    (b : Bool) (h : ¬(w.test_percent.neg ∨ w.test_percent.gtOne)) :
    write_dataset w objs b =
      (Event.echo (String.intercalate "/" (w.dataset_path ++ [w.dataset_name])) ::
       Event.mkdir (w.dataset_path ++ [w.dataset_name, "test"]) ::
       ((objs.take (heldCount objs.length w.test_percent)).map fun o =>
          Event.copyFiles o.image_id (w.dataset_path ++ [w.dataset_name, "test"])) ++
       (if b then [] else
         [Event.makedirs (w.dataset_path ++ [w.dataset_name, "splits", "complete", "train"])]) ++
       [Event.writeData
          (((objs.drop (heldCount objs.length w.test_percent)).drop
              (heldCount (objs.drop (heldCount objs.length w.test_percent)).length
                w.test_percent)).map CObj.image_id)
          (w.dataset_path ++ [w.dataset_name, "splits", "complete", "train"]) "train",
        Event.writeData
          (((objs.drop (heldCount objs.length w.test_percent)).take
              (heldCount (objs.drop (heldCount objs.length w.test_percent)).length
                w.test_percent)).map CObj.image_id)
          (w.dataset_path ++ [w.dataset_name, "splits", "complete", "train"]) "test"],
       Except.ok ()) := by
  simp [write_dataset, write_out_complete_set, split_data, copy_data_locally, h,
    Function.comp_def, Nat.add_comm]

/-- C1, witness: the amended statement evaluated on the fixture run
(10 objects, `test_percent = 0.2`): 2 objects under `test/`, a 6-object
train split and a 2-object test split both written to
`splits/complete/train/`. -/
theorem C1_witness :
    (¬((w10.test_percent).neg ∨ (w10.test_percent).gtOne)) ∧
    write_dataset w10 objs10 false =
      ([Event.echo "root/ds",
        Event.mkdir ["root", "ds", "test"],
        Event.copyFiles "o1" ["root", "ds", "test"],
        Event.copyFiles "o2" ["root", "ds", "test"],
        Event.makedirs ["root", "ds", "splits", "complete", "train"],
        Event.writeData ["o5", "o6", "o7", "o8", "o9", "o10"]
          ["root", "ds", "splits", "complete", "train"] "train",
        Event.writeData ["o3", "o4"]
          ["root", "ds", "splits", "complete", "train"] "test"],
       Except.ok ()) :=
  ⟨by decide, C1_single_split_directory w10 objs10 false (by decide)⟩

/-! ## Claim C5 -/

/-- C5, counterexample: a metadata write whose `image_ids` hold one
non-serializable id fails part-way through serialization, yet
`metadata.json` remains on disk holding the partial prefix written before
the failure (an unterminated JSON text, not the complete file, and not
absence of a file). -/
theorem C5_counterexample :
    (write_metadata_model ["root"] "ds" "2020-01-01T00:00:00Z" "Ada" "demo"
       "plug" [("setA", .js "img1"), ("setA", .jbad 0)] [("groups", [])]).ok
      = false ∧
    (write_metadata_model ["root"] "ds" "2020-01-01T00:00:00Z" "Ada" "demo"
       "plug" [("setA", .js "img1"), ("setA", .jbad 0)] [("groups", [])]).disk
      = some "\x7b\"name\": \"ds\", \"date_created\": \"2020-01-01T00:00:00Z\", \"created_by\": \"Ada\", \"comments\": \"demo\", \"training_type\": \"plug\", \"image_ids\": [[\"setA\", \"img1\"], [\"setA\", " ∧
    (write_metadata_model ["root"] "ds" "2020-01-01T00:00:00Z" "Ada" "demo"
       "plug" [("setA", .js "img1"), ("setA", .jbad 0)] [("groups", [])]).disk
      ≠ none := by
  decide

/-- C5 (amended): `write_metadata` opens (creates or truncates)
`metadata.json` before serializing and streams the serialization into it,
so after every metadata write — succeeding or failing part-way — a
`metadata.json` file exists on disk; a serialization failure leaves the
partially written file rather than removing it or placing it atomically. -/
theorem C5_file_always_remains (dataset_path : PyPath)
    (dataset_name date created_by comments training_type : String)
    (image_ids : List (String × JLeaf)) (filters : FilterMeta) :
    (write_metadata_model dataset_path dataset_name date created_by comments
       training_type image_ids filters).disk ≠ none ∧
    (write_metadata_model dataset_path dataset_name date created_by comments
       training_type image_ids filters).trace =
      [Event.writeFile (dataset_path ++ [dataset_name, "metadata.json"])] := by
  constructor
  · simp [write_metadata_model]
  · rfl

/-! ## Claim C8 -/

/-- C8: with a configured metadata suffix other than `.json`,
`load_image_ids` raises the unsupported-metadata-format error before
scanning any imageset directory (its trace is empty); with the `.json`
suffix it never fails for that reason and scans every configured imageset
directory. -/
theorem C8_metadata_format_guard (w : DatasetWriterState)
    (dirs : List ImagesetDir) (pre suf : String)
    (h : lookup? w.associated_files "metadata" = some (.pair pre suf)) :
    (suf ≠ ".json" →
      load_image_ids w dirs =
        ([], .error (.unsupportedMetadataFormat
          "Currently non-json metadata files are not supported for the default loading of image ids"))) ∧
    (suf = ".json" →
      (load_image_ids w dirs).1 = dirs.map fun d => Event.scanDir d.path) ∧
    (suf = ".json" →
      ∀ msg, (load_image_ids w dirs).2 ≠ .error (.unsupportedMetadataFormat msg)) := by
  refine ⟨?_, ?_, ?_⟩
  · intro hs
    simp [load_image_ids, h, hs]
  · intro hs
    simp [load_image_ids, h, hs]
  · intro hs msg
    simp [load_image_ids, h, hs]

/-- C8, witness: a `.txt` suffix fails before scanning; the `.json`
fixture scans the single imageset directory without that failure. -/
theorem C8_witness :
    (lookup? wTxt.associated_files "metadata" = some (.pair "meta_" ".txt") ∧
     lookup? w10.associated_files "metadata" = some (.pair "meta_" ".json")) ∧
    (((".txt" : String) ≠ ".json" →
       load_image_ids wTxt dirs0 =
         ([], .error (.unsupportedMetadataFormat
           "Currently non-json metadata files are not supported for the default loading of image ids"))) ∧
     ((".json" : String) = ".json" →
       (load_image_ids w10 dirs0).1 = dirs0.map fun d => Event.scanDir d.path)) :=
  ⟨⟨by decide, by decide⟩,
   ⟨(C8_metadata_format_guard wTxt dirs0 "meta_" ".txt" (by decide)).1,
    (C8_metadata_format_guard w10 dirs0 "meta_" ".json" (by decide)).2.1⟩⟩

/-! ## Claim C10 -/

/-- C10: `DatasetWriter.__init__` (given the `associated_files` keyword)
raises if and only if the supplied dict has no truthy `metadata` entry;
when the entry is present it succeeds and initializes `image_ids` to `None`
and `filter_metadata` to `{"groups": []}`. -/
theorem C10_construct_guard (create : WriterCreate)
    (kwargs : List (String × AssocFiles)) (af : AssocFiles)
    (h : lookup? kwargs "associated_files" = some af) :
    ((∃ e, DatasetWriter.construct create kwargs = .error e) ↔
      afTruthy (lookup? af "metadata") = false) ∧
    (afTruthy (lookup? af "metadata") = true →
      ∃ wst, DatasetWriter.construct create kwargs = .ok wst ∧
        wst.image_ids = none ∧ wst.filter_metadata = [("groups", [])] ∧
        wst.associated_files = af) := by
  constructor
  · constructor
    · rintro ⟨e, he⟩
      by_contra hf
      rw [Bool.not_eq_false] at hf
      simp [DatasetWriter.construct, h, hf] at he
    · intro hf
      refine ⟨.exception
        "Associated files must contain a 'metadata' key with a corresponding prefix-suffix pair", ?_⟩
      simp [DatasetWriter.construct, h, hf]
  · intro ha
    refine ⟨{ associated_files := af
              num_folds := create.kfolds
              test_percent := create.test_percent
              temp_dir := create.temp_dir_path
              dataset_path := create.dataset_path
              dataset_name := create.dataset_name
              created_by := create.created_by
              comments := create.comments
              plugin_name := create.architecture
              imageset_paths := create.imageset_paths
              tags_df := []
              image_ids := none
              filter_metadata := [("groups", [])] }, ?_, rfl, rfl, rfl⟩
    simp [DatasetWriter.construct, h, ha]

/-- C10, witness: a kwargs dict carrying `af0` (truthy `metadata` entry)
constructs successfully with the documented initial fields; the same claim
instance also certifies the `error ↔ no truthy metadata` equivalence. -/
theorem C10_witness :
    (lookup? [("associated_files", af0)] "associated_files" = some af0) ∧
    (((∃ e, DatasetWriter.construct
        ⟨5, ⟨1, 5⟩, ["tmp"], ["root"], "ds", "Ada", "demo", "plug", ["setA"]⟩
        [("associated_files", af0)] = .error e) ↔
       afTruthy (lookup? af0 "metadata") = false) ∧
     (afTruthy (lookup? af0 "metadata") = true →
       ∃ wst, DatasetWriter.construct
           ⟨5, ⟨1, 5⟩, ["tmp"], ["root"], "ds", "Ada", "demo", "plug", ["setA"]⟩
           [("associated_files", af0)] = .ok wst ∧
         wst.image_ids = none ∧ wst.filter_metadata = [("groups", [])] ∧
         wst.associated_files = af0)) :=
  ⟨by decide,
   C10_construct_guard
     ⟨5, ⟨1, 5⟩, ["tmp"], ["root"], "ds", "Ada", "demo", "plug", ["setA"]⟩
     [("associated_files", af0)] af0 (by decide)⟩

/-! ## Claim C9 -/

/-- C9: on a fully specified configuration — `dataset_path` with
`overwrite_local` set, an imageset list, truthy `created_by`, `comments`
and `dataset_name`, a `plugin` section, and `upload` / `delete_local` keys
present — constructing `CreateInput` and `CreateOutput` makes zero calls to
the interaction oracle, whatever the filesystem state, remote store
contents and oracle answers. -/
theorem C9_zero_oracle_calls (c : Config) (pn : String) (dp : String)
    (ims : List String) (fs : FS) (avail : List String) (oracle : Oracle)
    (now : String) (isd : ImagesetData) (dn : String)
    (h1 : c.dataset_path = some dp)
    (h2 : c.overwrite_local = true)
    (h3 : c.imageset = some ims)
    (h4 : strTruthy c.created_by = true)
    (h5 : strTruthy c.comments = true)
    (h6 : strTruthy c.dataset_name = true)
    (h7 : c.plugin = true)
    (h8 : c.upload.isSome = true)
    (h9 : c.delete_local.isSome = true) :
    oracleCalls (createInput (some c) (some pn) fs avail oracle now isd).1 = [] ∧
    oracleCalls (createOutput c dn oracle).1 = [] := by
  constructor
  · have hoc := oracleCalls_ci_check avail ims
    simp only [oracleCalls] at hoc
    by_cases hfs : (fs.dpExists && fs.dpIsDir && fs.dpNonempty) = true
    · cases hchk : (ci_check_imagesets avail ims).2 with
      | error e =>
          simp [createInput, ci_dataset_path, ci_imageset, h1, h2, h3, h4, h5,
            h6, h7, hfs, hchk, oracleCalls, Event.isPrompt, List.filter_append,
            write_metadata_model, default_filter_and_load, Except.map, hoc]
      | ok u =>
          simp [createInput, ci_dataset_path, ci_imageset, h1, h2, h3, h4, h5,
            h6, h7, hfs, hchk, oracleCalls, Event.isPrompt, List.filter_append,
            write_metadata_model, default_filter_and_load, Except.map, hoc]
    · cases hchk : (ci_check_imagesets avail ims).2 with
      | error e =>
          simp [createInput, ci_dataset_path, ci_imageset, h1, h2, h3, h4, h5,
            h6, h7, hfs, hchk, oracleCalls, Event.isPrompt, List.filter_append,
            write_metadata_model, default_filter_and_load, Except.map, hoc]
      | ok u =>
          simp [createInput, ci_dataset_path, ci_imageset, h1, h2, h3, h4, h5,
            h6, h7, hfs, hchk, oracleCalls, Event.isPrompt, List.filter_append,
            write_metadata_model, default_filter_and_load, Except.map, hoc]
  · obtain ⟨u, hu⟩ := Option.isSome_iff_exists.mp h8
    obtain ⟨d, hd⟩ := Option.isSome_iff_exists.mp h9
    simp [createOutput, hu, hd, oracleCalls]

/-- C9, witness: the fully specified fixture configuration. -/
theorem C9_witness :
    (cfgFull.dataset_path = some "root" ∧
     cfgFull.overwrite_local = true ∧
     cfgFull.imageset = some ["setA"] ∧
     strTruthy cfgFull.created_by = true ∧
     strTruthy cfgFull.comments = true ∧
     strTruthy cfgFull.dataset_name = true ∧
     cfgFull.plugin = true ∧
     cfgFull.upload.isSome = true ∧
     cfgFull.delete_local.isSome = true) ∧
    (oracleCalls (createInput (some cfgFull) (some "plug") fs0 avail0 oracle0
        "now" isd0).1 = [] ∧
     oracleCalls (createOutput cfgFull "ds" oracle0).1 = []) :=
  ⟨⟨by decide, by decide, by decide, by decide, by decide, by decide,
    by decide, by decide, by decide⟩,
   C9_zero_oracle_calls cfgFull "plug" "root" ["setA"] fs0 avail0 oracle0
     "now" isd0 "ds" (by decide) (by decide) (by decide) (by decide)
     (by decide) (by decide) (by decide) (by decide) (by decide)⟩

/-! ## Claim C6 -/

/-- C6, counterexample: the fixture run completes successfully, yet
`metadata.json` at the dataset root is written twice — once already during
`CreateInput` construction (before any pipeline stage) and once by the
`write_metadata` stage — refuting “persisted exactly once, at the end”. -/
theorem C6_counterexample :
    (metadataWrites (defaultRun cfgFull "plug" fs0 avail0 oracle0 "now" isd0
       5 ⟨1, 5⟩ ["tmp"] af0 dirs0 objs10 false ([], .ok ())).1).length = 2 ∧
    (defaultRun cfgFull "plug" fs0 avail0 oracle0 "now" isd0
       5 ⟨1, 5⟩ ["tmp"] af0 dirs0 objs10 false ([], .ok ())).2 = .ok () ∧
    metadataWrites (createInput (some cfgFull) (some "plug") fs0 avail0
       oracle0 "now" isd0).1 =
      [Event.writeFile ["root", "ds", "metadata.json"]] := by
  decide

/-- C6 (amended): over one successful dataset-creation run on a fully
specified configuration, `metadata.json` at the dataset root is persisted
exactly twice: a skeleton is written at the end of `CreateInput`
construction, before any pipeline stage runs, and the full file is
written again by the `write_metadata` stage at the end of the run. -/
theorem C6_metadata_written_twice (c : Config) (pn dp cb cm dn : String)
    (ims : List String) (fs : FS) (avail : List String) (oracle : Oracle)
    (now : String) (isd : ImagesetData) (kf : ℕ) (p : Ratio)
    (temp_dir : PyPath) (af : AssocFiles) (pre : String)
    (dirs : List ImagesetDir) (objs : List CObj) (b : Bool)
    (extras : List Event × Except PyErr Unit)
    (h1 : c.dataset_path = some dp) (h2 : c.overwrite_local = true)
    (h3 : c.imageset = some ims)
    (hall : ∀ x ∈ ims, avail.contains x = true)
    (h4 : c.created_by = some cb) (hcb : cb ≠ "")
    (h5 : c.comments = some cm) (hcm : cm ≠ "")
    (h6 : c.dataset_name = some dn) (hdn : dn ≠ "")
    (h7 : c.plugin = true)
    (haf : lookup? af "metadata" = some (.pair pre ".json"))
    (hp : ¬(p.neg ∨ p.gtOne))
    (hex : metadataWrites extras.1 = [])
    (hok : extras.2 = .ok ()) :
    metadataWrites (defaultRun c pn fs avail oracle now isd kf p temp_dir af
        dirs objs b extras).1 =
      [Event.writeFile [dp, dn, "metadata.json"],
       Event.writeFile [dp, dn, "metadata.json"]] ∧
    (defaultRun c pn fs avail oracle now isd kf p temp_dir af
        dirs objs b extras).2 = .ok () ∧
    metadataWrites (createInput (some c) (some pn) fs avail oracle now isd).1 =
      [Event.writeFile [dp, dn, "metadata.json"]] := by
  have hci := createInput_full_eval c pn dp cb cm dn ims fs avail oracle now
    isd h1 h2 h3 hall h4 hcb h5 hcm h6 hdn h7
  have hwm := write_metadata_of_ok
  have hgl : ([dp, dn, "metadata.json"] : PyPath).getLast? =
      some "metadata.json" := rfl
  refine ⟨?_, ?_, ?_⟩
  · by_cases hfs : (fs.dpExists && fs.dpIsDir && fs.dpNonempty) = true
    · simp [defaultRun, hci, DefaultDatasetWriter.construct,
        DatasetWriter.construct, lookup?, afTruthy, haf, load_image_ids,
        interactive_filter, default_filter, cli_spinner, write_dataset,
        write_out_complete_set, split_data, hp, write_metadata_of_ok,
        write_metadata_of_trace, hok, hex, hgl, hfs]
    · simp [defaultRun, hci, DefaultDatasetWriter.construct,
        DatasetWriter.construct, lookup?, afTruthy, haf, load_image_ids,
        interactive_filter, default_filter, cli_spinner, write_dataset,
        write_out_complete_set, split_data, hp, write_metadata_of_ok,
        write_metadata_of_trace, hok, hex, hgl, hfs]
  · simp [defaultRun, hci, DefaultDatasetWriter.construct,
      DatasetWriter.construct, lookup?, afTruthy, haf, load_image_ids,
      interactive_filter, default_filter, cli_spinner, write_dataset,
      write_out_complete_set, split_data, hp, write_metadata_of_ok,
      write_metadata_of_trace, hok]
  · by_cases hfs : (fs.dpExists && fs.dpIsDir && fs.dpNonempty) = true
    · simp [hci, hgl, hfs]
    · simp [hci, hgl, hfs]

/-- C6, witness: the amended statement on the fixture run. -/
theorem C6_witness :
    (cfgFull.dataset_path = some "root" ∧ cfgFull.overwrite_local = true ∧
     cfgFull.imageset = some ["setA"] ∧
     (∀ x ∈ ["setA"], avail0.contains x = true) ∧
     cfgFull.created_by = some "Ada" ∧ ("Ada" : String) ≠ "" ∧
     cfgFull.comments = some "demo" ∧ ("demo" : String) ≠ "" ∧
     cfgFull.dataset_name = some "ds" ∧ ("ds" : String) ≠ "" ∧
     cfgFull.plugin = true ∧
     lookup? af0 "metadata" = some (.pair "meta_" ".json") ∧
     ¬((⟨1, 5⟩ : Ratio).neg ∨ (⟨1, 5⟩ : Ratio).gtOne) ∧
     metadataWrites ([] : List Event) = [] ∧
     (([] : List Event), (Except.ok () : Except PyErr Unit)).2 = .ok ()) ∧
    (metadataWrites (defaultRun cfgFull "plug" fs0 avail0 oracle0 "now" isd0
        5 ⟨1, 5⟩ ["tmp"] af0 dirs0 objs10 false ([], .ok ())).1 =
      [Event.writeFile ["root", "ds", "metadata.json"],
       Event.writeFile ["root", "ds", "metadata.json"]] ∧
     (defaultRun cfgFull "plug" fs0 avail0 oracle0 "now" isd0
        5 ⟨1, 5⟩ ["tmp"] af0 dirs0 objs10 false ([], .ok ())).2 = .ok () ∧
     metadataWrites (createInput (some cfgFull) (some "plug") fs0 avail0
        oracle0 "now" isd0).1 =
       [Event.writeFile ["root", "ds", "metadata.json"]]) :=
  ⟨⟨by decide, by decide, by decide, by decide, by decide, by decide,
    by decide, by decide, by decide, by decide, by decide, by decide,
    by decide, by decide, by decide⟩,
   C6_metadata_written_twice cfgFull "plug" "root" "Ada" "demo" "ds" ["setA"]
     fs0 avail0 oracle0 "now" isd0 5 ⟨1, 5⟩ ["tmp"] af0 "meta_" dirs0 objs10
     false ([], .ok ()) (by decide) (by decide) (by decide) (by decide)
     (by decide) (by decide) (by decide) (by decide) (by decide) (by decide)
     (by decide) (by decide) (by decide) (by decide) (by decide)⟩

/-! ## Claim C7 -/

/-- C7, counterexample: with `test_percent = 1.5` in an otherwise fully
specified configuration, `CreateInput` construction succeeds — no
`ConfigurationError` — and the dataset directories are created; the
`ConfigurationError` surfaces only later in the run (from the splitter in
`write_dataset`), after the directories already exist, refuting “raises
before any directory is created”. -/
theorem C7_counterexample :
    (createInput (some cfg15) (some "plug") fs0 avail0 oracle0 "now" isd0).2 =
      .ok ⟨["root"], "ds", "Ada", "demo", some 5, some ⟨3, 2⟩, ["setA"],
           [("setA", "img1")], [("groups", [])], "plug"⟩ ∧
    Event.makedirs ["root"] ∈
      (createInput (some cfg15) (some "plug") fs0 avail0 oracle0 "now" isd0).1 ∧
    (defaultRun cfg15 "plug" fs0 avail0 oracle0 "now" isd0
       5 ⟨3, 2⟩ ["tmp"] af0 dirs0 objs10 false ([], .ok ())).2 =
      .error .configurationError ∧
    Event.makedirs ["root"] ∈
      (defaultRun cfg15 "plug" fs0 avail0 oracle0 "now" isd0
         5 ⟨3, 2⟩ ["tmp"] af0 dirs0 objs10 false ([], .ok ())).1 := by
  decide

/-- C7 (amended): `CreateInput` performs no range validation of
`test_percent`: with any out-of-range value (for instance `1.5`) in an
otherwise fully specified configuration, construction succeeds and creates
the dataset directories; the `ConfigurationError` of the (spec-modelled)
splitter is raised only when `split_data` first runs inside
`write_dataset`, so directories exist before it is raised. -/
theorem C7_no_early_validation (c : Config) (pn dp cb cm dn : String)
    (ims : List String) (fs : FS) (avail : List String) (oracle : Oracle)
    (now : String) (isd : ImagesetData) (kf : ℕ) (p : Ratio)
    (temp_dir : PyPath) (af : AssocFiles) (pre : String)
    (dirs : List ImagesetDir) (objs : List CObj) (b : Bool)
    (extras : List Event × Except PyErr Unit)
    (h1 : c.dataset_path = some dp) (h2 : c.overwrite_local = true)
    (h3 : c.imageset = some ims)
    (hall : ∀ x ∈ ims, avail.contains x = true)
    (h4 : c.created_by = some cb) (hcb : cb ≠ "")
    (h5 : c.comments = some cm) (hcm : cm ≠ "")
    (h6 : c.dataset_name = some dn) (hdn : dn ≠ "")
    (h7 : c.plugin = true)
    (haf : lookup? af "metadata" = some (.pair pre ".json"))
    (hp : p.gtOne = true) :
    (∃ st, (createInput (some c) (some pn) fs avail oracle now isd).2 =
      .ok st) ∧
    Event.makedirs [dp, dn] ∈
      (createInput (some c) (some pn) fs avail oracle now isd).1 ∧
    (defaultRun c pn fs avail oracle now isd kf p temp_dir af dirs objs b
       extras).2 = .error .configurationError ∧
    Event.makedirs [dp, dn] ∈
      (defaultRun c pn fs avail oracle now isd kf p temp_dir af dirs objs b
         extras).1 := by
  have hci := createInput_full_eval c pn dp cb cm dn ims fs avail oracle now
    isd h1 h2 h3 hall h4 hcb h5 hcm h6 hdn h7
  refine ⟨⟨_, by rw [hci]⟩, ?_, ?_, ?_⟩
  · rw [hci]
    simp
  · simp [defaultRun, hci, DefaultDatasetWriter.construct,
      DatasetWriter.construct, lookup?, afTruthy, haf, load_image_ids,
      interactive_filter, default_filter, load_data, copy_data_locally,
      cli_spinner, write_dataset, write_out_complete_set, split_data, hp]
  · simp [defaultRun, hci, DefaultDatasetWriter.construct,
      DatasetWriter.construct, lookup?, afTruthy, haf, load_image_ids,
      interactive_filter, default_filter, load_data, copy_data_locally,
      cli_spinner, write_dataset, write_out_complete_set, split_data, hp]

/-- C7, witness: the amended statement on the `test_percent = 1.5`
fixture. -/
theorem C7_witness :
    (cfg15.dataset_path = some "root" ∧ cfg15.overwrite_local = true ∧
     cfg15.imageset = some ["setA"] ∧
     (∀ x ∈ ["setA"], avail0.contains x = true) ∧
     cfg15.created_by = some "Ada" ∧ ("Ada" : String) ≠ "" ∧
     cfg15.comments = some "demo" ∧ ("demo" : String) ≠ "" ∧
     cfg15.dataset_name = some "ds" ∧ ("ds" : String) ≠ "" ∧
     cfg15.plugin = true ∧
     lookup? af0 "metadata" = some (.pair "meta_" ".json") ∧
     (⟨3, 2⟩ : Ratio).gtOne = true) ∧
    ((∃ st, (createInput (some cfg15) (some "plug") fs0 avail0 oracle0 "now"
        isd0).2 = .ok st) ∧
     Event.makedirs ["root", "ds"] ∈
       (createInput (some cfg15) (some "plug") fs0 avail0 oracle0 "now"
          isd0).1 ∧
     (defaultRun cfg15 "plug" fs0 avail0 oracle0 "now" isd0 5 ⟨3, 2⟩ ["tmp"]
        af0 dirs0 objs10 false ([], .ok ())).2 = .error .configurationError ∧
     Event.makedirs ["root", "ds"] ∈
       (defaultRun cfg15 "plug" fs0 avail0 oracle0 "now" isd0 5 ⟨3, 2⟩ ["tmp"]
          af0 dirs0 objs10 false ([], .ok ())).1) :=
  ⟨⟨by decide, by decide, by decide, by decide, by decide, by decide,
    by decide, by decide, by decide, by decide, by decide, by decide,
    by decide⟩,
   C7_no_early_validation cfg15 "plug" "root" "Ada" "demo" "ds" ["setA"] fs0
     avail0 oracle0 "now" isd0 5 ⟨3, 2⟩ ["tmp"] af0 "meta_" dirs0 objs10
     false ([], .ok ()) (by decide) (by decide) (by decide) (by decide)
     (by decide) (by decide) (by decide) (by decide) (by decide) (by decide)
     (by decide) (by decide) (by decide)⟩

end Raven
